import Mathlib

/-!
Shallow embedding of the `eh` crate (src/lib.rs): a polymorphic truthiness
conversion, C/C++-style, exposed as a trait `Eh` with one method
`fn eh(&self) -> bool`, implemented for `bool`, all primitive integer
widths, `f32`/`f64`, raw pointers, `core::num::Wrapping`, `Option` and
`Result`.
-/

set_option autoImplicit false

namespace EhSpec

/-- The `Eh` trait from src/lib.rs: `pub trait Eh { fn eh(&self) -> bool; }`.
The receiver is taken by shared reference and the method is pure, so it is
embedded as a plain function to `Bool`. -/
class Eh (α : Type) where
  eh : α → Bool

export Eh (eh)

/-- `impl Eh for bool { fn eh(&self) -> bool { *self } }` -/
instance : Eh Bool :=
  ⟨fun b => b⟩

/-- A signed machine integer of bit width `w` (the `int_eh!` macro covers
`i8, i16, i32, i64, i128, isize`, i.e. widths 8 to 128), embedded as an
integer in the representable range. -/
def SignedInt (w : Nat) : Type :=
  {n : Int // -(2 ^ (w - 1) : Int) ≤ n ∧ n < 2 ^ (w - 1)}

/-- An unsigned machine integer of bit width `w` (`u8, u16, u32, u64, u128,
usize`), embedded as a natural number below `2 ^ w`. -/
def UnsignedInt (w : Nat) : Type :=
  {n : Nat // n < 2 ^ w}

/-- `int_eh!` for signed types: `fn eh(&self) -> bool { *self != 0 }`. -/
instance (w : Nat) : Eh (SignedInt w) :=
  ⟨fun x => decide (x.val ≠ 0)⟩

/-- `int_eh!` for unsigned types: `fn eh(&self) -> bool { *self != 0 }`. -/
instance (w : Nat) : Eh (UnsignedInt w) :=
  ⟨fun x => decide (x.val ≠ 0)⟩

/-- The minimum representable value `MIN` of a signed width (`-(2^(w-1))`). -/
def SignedInt.minVal (w : Nat) : SignedInt w :=
  ⟨-(2 ^ (w - 1)), le_refl _, by
    have h : (0 : Int) < 2 ^ (w - 1) := by positivity
    linarith⟩

/-- The maximum representable value `MAX` of a signed width (`2^(w-1) - 1`). -/
def SignedInt.maxVal (w : Nat) : SignedInt w :=
  ⟨2 ^ (w - 1) - 1, by
    have h : (0 : Int) < 2 ^ (w - 1) := by positivity
    constructor <;> linarith⟩

/-- The zero value of a signed width. -/
def SignedInt.zeroVal (w : Nat) : SignedInt w :=
  ⟨0, by
    have h : (0 : Int) < 2 ^ (w - 1) := by positivity
    constructor <;> linarith⟩

/-- The value one of the signed 32-bit width (`1i32`). -/
def SignedInt.one32 : SignedInt 32 :=
  ⟨1, by norm_num⟩

/-- The minimum representable value `MIN` of an unsigned width, which is `0`. -/
def UnsignedInt.minVal (w : Nat) : UnsignedInt w :=
  ⟨0, by positivity⟩

/-- The maximum representable value `MAX` of an unsigned width (`2^w - 1`). -/
def UnsignedInt.maxVal (w : Nat) : UnsignedInt w :=
  ⟨2 ^ w - 1, Nat.sub_lt (by positivity) one_pos⟩

/-- An IEEE-754 floating-point value, abstracted to exactly the content the
crate inspects: NaN, a signed infinity, or a finite value `(-1)^neg * mag`.
Both `f32` and `f64` are embedded by this one type because the `float_eh!`
macro generates the identical body for both precisions. -/
inductive FP : Type where
  | nan : FP
  | inf (neg : Bool) : FP
  | finite (neg : Bool) (mag : ℚ) : FP
deriving DecidableEq

/-- The signed rational value of a finite float. -/
def FP.signedVal (neg : Bool) (mag : ℚ) : ℚ :=
  if neg then -mag else mag

/-- IEEE-754 equality (Rust `PartialEq::eq` on floats): NaN compares unequal
to everything including itself; infinities compare by sign; finite values
compare by signed value, so `+0.0 == -0.0`. -/
def FP.ieeeEq : FP → FP → Bool
  | .nan, _ => false
  | .inf _, .nan => false
  | .inf a, .inf b => a == b
  | .inf _, .finite _ _ => false
  | .finite _ _, .nan => false
  | .finite _ _, .inf _ => false
  | .finite a x, .finite b y => decide (FP.signedVal a x = FP.signedVal b y)

/-- IEEE-754 inequality (Rust `!=` on floats, i.e. `PartialEq::ne`). -/
def FP.ieeeNe (f g : FP) : Bool :=
  !(FP.ieeeEq f g)

/-- The float literal `0.0` (positive zero). -/
def FP.zero : FP :=
  .finite false 0

/-- `float_eh!`: `fn eh(&self) -> bool { *self != 0.0 }`. -/
instance : Eh FP :=
  ⟨fun f => FP.ieeeNe f FP.zero⟩

/-- A raw const pointer `*const α`: an address, possibly null, whose referent
is never read. Only the address is stored, because `is_null` inspects
nothing else. -/
structure ConstPtr (α : Type) : Type where
  addr : Nat

/-- A raw mutable pointer `*mut α`. -/
structure MutPtr (α : Type) : Type where
  addr : Nat

/-- `<*const T>::is_null`: the address is the null address. -/
def ConstPtr.is_null {α : Type} (p : ConstPtr α) : Bool :=
  p.addr == 0

/-- `<*mut T>::is_null`. -/
def MutPtr.is_null {α : Type} (p : MutPtr α) : Bool :=
  p.addr == 0

/-- `impl<T: ?Sized> Eh for *const T { fn eh(&self) -> bool { !self.is_null() } }` -/
instance {α : Type} : Eh (ConstPtr α) :=
  ⟨fun p => !(p.is_null)⟩

/-- `impl<T: ?Sized> Eh for *mut T { fn eh(&self) -> bool { !self.is_null() } }` -/
instance {α : Type} : Eh (MutPtr α) :=
  ⟨fun p => !(p.is_null)⟩

/-- `core::num::Wrapping<T>`: a tuple struct wrapping one value. -/
structure Wrapping (α : Type) : Type where
  val : α

/-- `impl<T: Eh> Eh for Wrapping<T> { fn eh(&self) -> bool { self.0.eh() } }` -/
instance {α : Type} [Eh α] : Eh (Wrapping α) :=
  ⟨fun w => eh w.val⟩

/-- `impl<T> Eh for Option<T> { fn eh(&self) -> bool { self.is_some() } }` -/
instance {α : Type} : Eh (Option α) :=
  ⟨fun o => o.isSome⟩

/-- Rust `Result<T, E>`: success with a payload, or failure with a payload. -/
inductive Result (α ε : Type) : Type where
  | ok (val : α) : Result α ε
  | err (val : ε) : Result α ε

/-- `Result::is_ok`. -/
def Result.isOk {α ε : Type} : Result α ε → Bool
  | .ok _ => true
  | .err _ => false

/-- `impl<T, E> Eh for Result<T, E> { fn eh(&self) -> bool { self.is_ok() } }` -/
instance {α ε : Type} : Eh (Result α ε) :=
  ⟨fun r => r.isOk⟩

/-- Unfolding lemma: on floats, `eh` is IEEE inequality against `0.0`. -/
theorem eh_fp_def (f : FP) : eh f = FP.ieeeNe f FP.zero :=
  rfl

/-- C7: for every boolean `b`, `isTruthy(b)` equals `b` itself; truthiness
restricted to booleans is the identity function. -/
theorem c7_bool_identity : ∀ b : Bool, Eh.eh b = b :=
  fun _ => rfl

/-- C1: on floats (one embedding serving both supported precisions, since the
macro-generated code is identical), `eh f` is exactly the IEEE comparison
`f != 0.0`; it is false precisely on the two zeros, and NaN, both
infinities, the smallest positive epsilon, `1.0` and `-1.0` are truthy while
`+0.0` and `-0.0` are falsy. -/
theorem c1_float_truthiness :
    (∀ f : FP, eh f = FP.ieeeNe f FP.zero) ∧
    (∀ f : FP, eh f = false ↔ ∃ s : Bool, f = FP.finite s 0) ∧
    eh FP.nan = true ∧
    eh (FP.inf false) = true ∧
    eh (FP.inf true) = true ∧
    eh (FP.finite false (1 / 2 ^ 52 : ℚ)) = true ∧
    eh (FP.finite false 1) = true ∧
    eh (FP.finite true 1) = true ∧
    eh (FP.finite false 0) = false ∧
    eh (FP.finite true 0) = false := by
  refine ⟨fun _ => rfl, ?_, by decide, by decide, by decide, ?_, by decide,
    by decide, by decide, by decide⟩
  · intro f
    cases f with
    | nan => simp [eh_fp_def, FP.ieeeNe, FP.ieeeEq, FP.zero]
    | inf s => simp [eh_fp_def, FP.ieeeNe, FP.ieeeEq, FP.zero]
    | finite s m =>
        rw [eh_fp_def]
        simp only [FP.ieeeNe, FP.ieeeEq, FP.zero, FP.signedVal,
          Bool.not_eq_false, decide_eq_true_eq, if_neg Bool.false_ne_true]
        constructor
        · intro h
          refine ⟨s, ?_⟩
          cases s with
          | false => simpa using h
          | true => simp at h; simp [h]
        · rintro ⟨t, h⟩
          cases h
          cases s <;> simp
  · rw [eh_fp_def]
    simp only [FP.ieeeNe, FP.ieeeEq, FP.zero, FP.signedVal,
      Bool.not_eq_eq_eq_not, Bool.not_false, decide_eq_false_iff_not]
    norm_num

/-- C2 (amended): for every supported integer width `w` (the crate covers
widths 8 through 128, so `8 ≤ w`), truthiness of both the signed and the
unsigned type of that width is exactly `n ≠ 0`; the signed `MIN`, the signed
`MAX` and the unsigned `MAX` are truthy; the zero value is falsy, and the
unsigned `MIN`, being zero, is falsy as well. -/
theorem c2_int_truthiness (w : Nat) (hw : 8 ≤ w) :
    (∀ x : SignedInt w, eh x = decide (x.val ≠ 0)) ∧
    (∀ x : UnsignedInt w, eh x = decide (x.val ≠ 0)) ∧
    eh (SignedInt.minVal w) = true ∧
    eh (SignedInt.maxVal w) = true ∧
    eh (UnsignedInt.maxVal w) = true ∧
    eh (SignedInt.zeroVal w) = false ∧
    eh (UnsignedInt.minVal w) = false := by
  have hp : (0 : Int) < 2 ^ (w - 1) := by positivity
  have h7 : (2 : Int) ^ 7 ≤ 2 ^ (w - 1) := by
    apply pow_le_pow_right₀ (by norm_num)
    omega
  refine ⟨fun _ => rfl, fun _ => rfl, ?_, ?_, ?_, ?_, ?_⟩
  · show decide ((SignedInt.minVal w).val ≠ 0) = true
    simp only [SignedInt.minVal, decide_eq_true_eq]
    intro h
    rw [neg_eq_zero] at h
    linarith [h7, h]
  · show decide ((SignedInt.maxVal w).val ≠ 0) = true
    simp only [SignedInt.maxVal, decide_eq_true_eq]
    intro h
    have : (2 : Int) ^ 7 = 128 := by norm_num
    linarith
  · show decide ((UnsignedInt.maxVal w).val ≠ 0) = true
    simp only [UnsignedInt.maxVal, decide_eq_true_eq]
    apply Nat.sub_ne_zero_of_lt
    have h8 : (2 : Nat) ^ 8 ≤ 2 ^ w := Nat.pow_le_pow_right (by norm_num) hw
    calc 1 < 2 ^ 8 := by norm_num
      _ ≤ 2 ^ w := h8
  · rfl
  · rfl

/-- C2 witness: the theorem instantiated at width 8 shows that `i8::MIN` is
truthy. -/
theorem c2_int_truthiness_witness : eh (SignedInt.minVal 8) = true :=
  (c2_int_truthiness 8 (by norm_num)).2.2.1

/-- C2 counterexample: the claim asserts that the minimum representable value
of every width is truthy, but the minimum of the unsigned 8-bit type is `0`,
which is falsy. -/
theorem c2_counterexample : eh (UnsignedInt.minVal 8) = false :=
  rfl

/-- C3: an `Option` is truthy exactly when it is `Some`, for any contained
value, whose own truthiness is never inspected: `Some(false)` and a `Some`
holding integer zero are truthy, and `None` is falsy. -/
theorem c3_option_truthiness :
    (∀ (α : Type) (x : α), eh (some x) = true) ∧
    (∀ α : Type, eh (none : Option α) = false) ∧
    eh (some false) = true ∧
    eh (some (UnsignedInt.minVal 8)) = true ∧
    eh (some (SignedInt.zeroVal 32)) = true :=
  ⟨fun _ _ => rfl, fun _ => rfl, rfl, rfl, rfl⟩

/-- C4: a `Result` is truthy exactly when it is `Ok`, whatever the payload:
every `Ok(x)` is truthy, including `Ok` holding integer zero, and every
`Err(e)` is falsy, whatever `e` is. -/
theorem c4_result_truthiness :
    (∀ (α ε : Type) (x : α), eh (Result.ok x : Result α ε) = true) ∧
    (∀ (α ε : Type) (e : ε), eh (Result.err e : Result α ε) = false) ∧
    eh (Result.ok (SignedInt.zeroVal 32) : Result (SignedInt 32) Bool) = true ∧
    eh (Result.err (SignedInt.zeroVal 32) : Result Bool (SignedInt 32)) = false :=
  ⟨fun _ _ _ => rfl, fun _ _ _ => rfl, rfl, rfl⟩

/-- C5: a raw pointer, const or mutable, to any referent type, is truthy
exactly when its address is non-null; the result depends only on the
address, never on the referent type or pointed-to memory (nothing else is
even part of the embedded pointer); the null pointer of either mutability is
falsy and a non-null dangling pointer (address 4, never dereferenced) is
truthy. -/
theorem c5_pointer_truthiness :
    (∀ (α : Type) (p : ConstPtr α), eh p = decide (p.addr ≠ 0)) ∧
    (∀ (α : Type) (p : MutPtr α), eh p = decide (p.addr ≠ 0)) ∧
    (∀ (α β : Type) (a : Nat),
      eh (⟨a⟩ : ConstPtr α) = eh (⟨a⟩ : ConstPtr β)) ∧
    (∀ (α β : Type) (a : Nat),
      eh (⟨a⟩ : MutPtr α) = eh (⟨a⟩ : MutPtr β)) ∧
    eh (⟨0⟩ : ConstPtr Nat) = false ∧
    eh (⟨0⟩ : MutPtr Nat) = false ∧
    eh (⟨4⟩ : ConstPtr Nat) = true ∧
    eh (⟨4⟩ : MutPtr Nat) = true := by
  refine ⟨?_, ?_, fun _ _ _ => rfl, fun _ _ _ => rfl, rfl, rfl, rfl, rfl⟩
  · intro α p
    show (!(p.addr == 0)) = decide (p.addr ≠ 0)
    cases h : (p.addr == 0) <;> simp_all
  · intro α p
    show (!(p.addr == 0)) = decide (p.addr ≠ 0)
    cases h : (p.addr == 0) <;> simp_all

/-- C6: truthiness of a `Wrapping` integer is exactly the truthiness of its
inner integer, for every signed and unsigned width; `Wrapping(1i32)` is
truthy and `Wrapping(0i32)` is falsy. -/
theorem c6_wrapping_int_truthiness :
    (∀ (w : Nat) (x : SignedInt w), eh (Wrapping.mk x) = eh x) ∧
    (∀ (w : Nat) (x : UnsignedInt w), eh (Wrapping.mk x) = eh x) ∧
    eh (Wrapping.mk SignedInt.one32) = true ∧
    eh (Wrapping.mk (SignedInt.zeroVal 32)) = false :=
  ⟨fun _ _ => rfl, fun _ _ => rfl, by decide, rfl⟩

/-- C8: for every value of every type with truthiness, feeding the boolean
result back into the operation is stable: `eh (eh v) = eh v`, because `eh`
on booleans is the identity. -/
theorem c8_idempotent :
    ∀ (α : Type) [Eh α] (v : α), eh (eh v) = eh v :=
  fun _ _ _ => rfl

/-- C9: the operation is total and pure over every supported type: it is a
function (so it cannot mutate its argument) and it always yields one of the
two boolean results, never a failure. -/
theorem c9_total :
    ∀ (α : Type) [Eh α] (v : α), eh v = true ∨ eh v = false := by
  intro α inst v
  cases h : eh v
  · right; rfl
  · left; rfl

/-- C10: the `Wrapping` implementation is defined for any inner type with
truthiness, not only integers, and always delegates to the inner value;
nested wrappers and wrapped floats satisfy the same delegation equation. -/
theorem c10_wrapping_delegation :
    (∀ (α : Type) [Eh α] (x : α), eh (Wrapping.mk x) = eh x) ∧
    (∀ (α : Type) [Eh α] (x : α),
      eh (Wrapping.mk (Wrapping.mk x)) = eh x) ∧
    (∀ f : FP, eh (Wrapping.mk f) = eh f) :=
  ⟨fun _ _ _ => rfl, fun _ _ _ => rfl, fun _ => rfl⟩

end EhSpec
